import Mathlib

/-!
Verification development for the cinegrid storyboard application.

The definitions below are a shallow embedding of the numeric and
control-flow core of the repository:

* `performSlicing`          — src/src/StoryboardApp.jsx, lines 291-380
* `calculateImageDimensions`— src/unnamed/part_002 (promptBuilder), lines 149-237
* `soraPollLoop`            — src/src/utils/api.js, lines 188-253
* `pollCancelTime`          — timing skeleton of the same polling loop
* `handleJimengProcessing`  — src/unnamed/part_001 (MiddlePanel), lines 148-186
* `handleUpscaleLoop`       — src/src/StoryboardApp.jsx, lines 689-790
* task state machine        — src/src/StoryboardApp.jsx, lines 462-606
* video panel operations    — src/unnamed/part_000 (VideoGenerationPanel)

JavaScript numbers are modelled as `ℚ` (exact rational arithmetic for the
divisions involved), nullable values as `Option`, thrown errors as
`Except.error` carrying the message string of the `Error` object built at
the throw site, and raster surfaces by their source rectangles.
-/

/-- One cell produced by the slicer.  The source rectangle
(`sx`, `sy`, `sw`, `sh`) records the arguments passed to
`ctx.drawImage` for this cell; `shotIndex` is the number in the
`Shot n` title; `aspectRatio` is the `aspectRatio` field of the
slice object. -/
structure SliceSpec where
  sx : ℚ
  sy : ℚ
  sw : ℚ
  sh : ℚ
  shotIndex : ℕ
  aspectRatio : ℚ
deriving DecidableEq

/-- `const rows = mode === '2x2' ? 2 : 3` (StoryboardApp.jsx:308). -/
def sliceRows (mode : String) : ℕ :=
  if mode == "2x2" then 2 else 3

/-- `const cols = mode === '2x2' ? 2 : 3` (StoryboardApp.jsx:309). -/
def sliceCols (mode : String) : ℕ :=
  if mode == "2x2" then 2 else 3

/-- The nested `for (y) for (x)` loops of `performSlicing`
(StoryboardApp.jsx:336-365): row-major cells, each holding the cell
rectangle, the 1-based shot number `y * cols + x + 1`, and the
aspect-ratio field. -/
def gridCells (rows cols : ℕ) (pieceWidth pieceHeight ar : ℚ) : List SliceSpec :=
  (List.range rows).flatMap (fun (y : ℕ) =>
    (List.range cols).map (fun (x : ℕ) =>
      { sx := (x : ℚ) * pieceWidth
        sy := (y : ℚ) * pieceHeight
        sw := pieceWidth
        sh := pieceHeight
        shotIndex := (y * cols + x + 1 : ℕ)
        aspectRatio := ar }))

/-- `performSlicing` (StoryboardApp.jsx:291-380) on an image that decoded
to `imgW × imgH` pixels: `pieceWidth = img.width / cols`,
`pieceHeight = img.height / rows` (floating-point division, here exact
rational division), cells traversed row-major, and every slice gets
`aspectRatio = shotSize.w / shotSize.h`. -/
def performSlicing (imgW imgH : ℚ) (mode : String) (shotW shotH : ℚ) : List SliceSpec :=
  gridCells (sliceRows mode) (sliceCols mode)
    (imgW / (sliceCols mode : ℚ)) (imgH / (sliceRows mode : ℚ)) (shotW / shotH)

/-- A point lies inside the source rectangle of a slice (left/top edges
inclusive, right/bottom edges exclusive). -/
def coversPoint (s : SliceSpec) (px py : ℚ) : Prop :=
  s.sx ≤ px ∧ px < s.sx + s.sw ∧ s.sy ≤ py ∧ py < s.sy + s.sh

/-- A generation task as created and mutated by the orchestrator
(StoryboardApp.jsx:474-488 and 572-598).  `imageUrl` is the task field
the spec calls `resultImageUrl`. -/
structure GenTask where
  id : ℕ
  status : String
  prompt : String
  gridMode : String
  imageUrl : Option String
  slices : List SliceSpec

/-- The task object built by `handleGenerate` (StoryboardApp.jsx:474-488):
`status: 'loading'`, `imageUrl: null`, `slices: []`. -/
def newTask (id : ℕ) (prompt gridMode : String) : GenTask :=
  { id := id, status := "loading", prompt := prompt, gridMode := gridMode
    imageUrl := none, slices := [] }

/-- The single success update of `processGenerationTask`
(StoryboardApp.jsx:572-577): `{ ...t, status: 'success', imageUrl, slices }`
where `slices` is the result of `performSlicing` on the decoded image. -/
def finishSuccess (t : GenTask) (url : String) (imgW imgH shotW shotH : ℚ) : GenTask :=
  { t with status := "success", imageUrl := some url
           slices := performSlicing imgW imgH t.gridMode shotW shotH }

/-- The error update of `processGenerationTask` (StoryboardApp.jsx:596-598):
`{ ...t, status: 'error' }`. -/
def finishError (t : GenTask) : GenTask :=
  { t with status := "error" }

/-- The task snapshots reachable for one task: it is created in `loading`
by `handleGenerate`, and `processGenerationTask` (run once per task)
applies exactly one of the success / error updates to it. -/
inductive TaskReachable : GenTask → Prop
  | created (id : ℕ) (prompt gridMode : String) :
      TaskReachable (newTask id prompt gridMode)
  | succeeded (id : ℕ) (prompt gridMode url : String) (imgW imgH shotW shotH : ℚ) :
      TaskReachable (finishSuccess (newTask id prompt gridMode) url imgW imgH shotW shotH)
  | errored (id : ℕ) (prompt gridMode : String) :
      TaskReachable (finishError (newTask id prompt gridMode))

/-- The modal decision in the catch block of `processGenerationTask`
(StoryboardApp.jsx:602): the global error modal is opened unless the
message is exactly one of the two recognised cancellation strings. -/
def showsErrorModal (msg : String) : Bool :=
  msg != "已取消" && msg != "用户取消"

/-- JavaScript `a || b` on two nullable strings (empty string is falsy). -/
def jsOrStr (a b : Option String) : Option String :=
  match a with
  | some s => if s = "" then b else some s
  | none => b

/-- One response of the `/v1/draw/result` endpoint as read by the polling
loop (api.js:201-219): HTTP ok flag, `data.status`, `data.results[0].url`,
`data.url`, `data.failure_reason`, `data.error`.  A missing `status` is
the empty string. -/
structure PollResponse where
  ok : Bool
  status : String
  resultsUrl : Option String
  url : Option String
  failureReason : Option String
  errField : Option String

/-- `taskData?.results?.[0]?.url || taskData?.url` (api.js:222). -/
def soraFinalUrl (r : PollResponse) : Option String :=
  jsOrStr r.resultsUrl r.url

/-- `taskData?.failure_reason || taskData?.error || 'Unknown error'`
(api.js:241). -/
def soraFailReason (r : PollResponse) : String :=
  (jsOrStr (jsOrStr r.failureReason r.errField) (some "Unknown error")).getD "Unknown error"

/-- Message of the error thrown when the attempt ceiling is exhausted
(api.js:253). -/
def soraTimeoutMsg : String :=
  "Sora Task Timeout: Max polling attempts reached."

/-- Message of the error thrown when the remote reports `status: 'failed'`
(api.js:241). -/
def soraFailedMsg (reason : String) : String :=
  "Sora Task Failed: " ++ reason

/-- `MAX_ATTEMPTS = 450` (api.js:188). -/
def soraMaxAttempts : ℕ := 450

/-- `DELAY_MS = 2000` (api.js:189). -/
def soraPollDelayMs : ℕ := 2000

/-- The polling loop of `generateSoraImage` (api.js:191-250).  `responses i`
is the reply to the i-th poll, `aborted i` the state of the AbortSignal at
the i-th top-of-loop check.  Per iteration: cancellation check, sleep,
fetch; a non-ok response `continue`s, `succeeded` returns the extracted
URL (the opportunistic local-blob re-fetch of api.js:227-237 is I/O and is
modelled as returning that URL), `failed` throws, anything else loops.
After the last attempt the timeout error is thrown (api.js:253). -/
def soraPollLoop (responses : ℕ → PollResponse) (aborted : ℕ → Bool) :
    ℕ → ℕ → Except String String
  | 0, _ => Except.error soraTimeoutMsg
  | fuel + 1, i =>
    if aborted i then Except.error "User cancelled."
    else
      if (responses i).ok = false then soraPollLoop responses aborted fuel (i + 1)
      else if (responses i).status == "succeeded" then
        match soraFinalUrl (responses i) with
        | some u => Except.ok u
        | none => Except.error "Status succeeded but no URL found."
      else if (responses i).status == "failed" then
        Except.error (soraFailedMsg (soraFailReason (responses i)))
      else soraPollLoop responses aborted fuel (i + 1)

/-- The full bounded polling phase of `generateSoraImage`. -/
def generateSoraImagePoll (responses : ℕ → PollResponse) (aborted : ℕ → Bool) :
    Except String String :=
  soraPollLoop responses aborted soraMaxAttempts 0

/-- Message of the cancellation error thrown inside the nano-banana
polling loop of `generateGrsaiImage` (api.js:369). -/
def nanoBananaCancelMsg : String := "用户取消"

/-- Message of the cancellation error thrown by the pre-flight signal
check of the Gemini branch of `generateGrsaiImage` (api.js:462). -/
def geminiPreflightCancelMsg : String := "用户取消请求"

/-- Message of the error that replaces a fetch AbortError in the Gemini
branch of `generateGrsaiImage` (api.js:574). -/
def geminiAbortMsg : String := "已取消"

/-- Timing skeleton of the polling loop of `generateSoraImage`
(api.js:191-209) when every poll response is non-terminal, so only
cancellation can end the loop early.  `ta` is the wall-clock time at
which the AbortSignal becomes aborted; the returned value is the
wall-clock time at which the loop raises the cancellation.  Per
iteration: the top-of-loop check is instantaneous
(`if (signal?.aborted) throw`); the `setTimeout` sleep always advances
the clock by the full `DELAY_MS` because it is not signal-aware; the
`fetch` carries the signal, so a cancellation pending when the sleep
ends aborts at that moment.  `none` means the loop exhausted its
attempts without observing the cancellation. -/
def pollCancelTime (ta : ℕ) : ℕ → ℕ → Option ℕ
  | 0, _ => none
  | fuel + 1, t =>
    if ta ≤ t then some t
    else
      if ta ≤ t + soraPollDelayMs then some (t + soraPollDelayMs)
      else pollCancelTime ta fuel (t + soraPollDelayMs)

/-- `pollCancelTime` started like the real loop: 450 attempts, clock 0. -/
def pollCancelObserved (ta : ℕ) : Option ℕ :=
  pollCancelTime ta soraMaxAttempts 0

/-- An entry of the processing queue (a slice or equivalent image). -/
structure QueueItem where
  id : String
  dataUrl : String
  aspectRatio : ℚ
deriving DecidableEq

/-- One enhancement output appended to the output area.  The MiddlePanel
variant stores the source reference as `sourceId`, the App variant calls
the same field `originalId`; both are modelled by `sourceId`. -/
structure UpscaledResult where
  dataUrl : String
  aspectRatio : ℚ
  sourceId : String
deriving DecidableEq

/-- The per-item loop of `handleJimengProcessing` (MiddlePanel, part_001
lines 148-186): each item is sent to the enhancement backend inside its
own try/catch; an error is logged and `continue`s to the next item; a
successful result is appended (via `onAddUpscaledResult`) carrying the
item aspect ratio and id.  `backend` abstracts the
`callJimengEnhance` / `callJimengSuperResolution` call. -/
def handleJimengProcessing (backend : QueueItem → Except String String) :
    List QueueItem → List UpscaledResult
  | [] => []
  | item :: rest =>
    match backend item with
    | Except.error _ => handleJimengProcessing backend rest
    | Except.ok res =>
      { dataUrl := res, aspectRatio := item.aspectRatio, sourceId := item.id } ::
        handleJimengProcessing backend rest

/-- The per-item loop of `handleUpscale` (StoryboardApp.jsx:704-779): the
same catch-and-continue shape; `backend` abstracts the model dispatch
plus the data-URL post-processing, and a success appends a result with
the item aspect ratio and `originalId := item.id`. -/
def handleUpscaleLoop (backend : QueueItem → Except String String) :
    List QueueItem → List UpscaledResult
  | [] => []
  | item :: rest =>
    match backend item with
    | Except.error _ => handleUpscaleLoop backend rest
    | Except.ok res =>
      { dataUrl := res, aspectRatio := item.aspectRatio, sourceId := item.id } ::
        handleUpscaleLoop backend rest

/-- The two state variables touched by the upscale processors. -/
structure UpscalePanelState where
  processingQueue : List QueueItem
  upscaledResults : List UpscaledResult

/-- Net state effect of a full `handleJimengProcessing` run (part_001
lines 148-186): results are appended one by one; the processing queue is
never written by this handler. -/
def handleJimengProcessingRun (backend : QueueItem → Except String String)
    (s : UpscalePanelState) : UpscalePanelState :=
  { processingQueue := s.processingQueue
    upscaledResults := s.upscaledResults ++ handleJimengProcessing backend s.processingQueue }

/-- Net state effect of a full `handleUpscale` run that completes its
batch (StoryboardApp.jsx:689-790): results are appended one by one, and
after the loop the handler executes `setProcessingQueue([])`
(StoryboardApp.jsx:781). -/
def handleUpscaleRun (backend : QueueItem → Except String String)
    (s : UpscalePanelState) : UpscalePanelState :=
  { processingQueue := []
    upscaledResults := s.upscaledResults ++ handleUpscaleLoop backend s.processingQueue }

/-- One storyboard entry of the video workflow (part_000). -/
structure VideoCard where
  id : String
  imageUrl : String
  prompt : String
  videoUrl : Option String
  status : String
  progress : ℕ
  errorMsg : Option String
deriving DecidableEq

/-- The merge state (part_000 lines 259-263). -/
structure MergeState where
  isMerging : Bool
  progress : ℕ
  mergedUrl : Option String
deriving DecidableEq

/-- The cards plus merge state of the video panel. -/
structure VideoPanelState where
  cards : List VideoCard
  mergeState : MergeState

/-- `setMergeState({ isMerging: false, progress: 0, mergedUrl: null })`. -/
def clearedMergeState : MergeState :=
  { isMerging := false, progress := 0, mergedUrl := none }

/-- Replace the element at an index, as `newCards[index] =
{ ...newCards[index], ...updates }` does on a copied array. -/
def modifyAt {α : Type} (f : α → α) : ℕ → List α → List α
  | _, [] => []
  | 0, a :: l => f a :: l
  | n + 1, a :: l => a :: modifyAt f n l

/-- `updateCard` (part_000 lines 522-530): update one card, then
`if (mergeState.mergedUrl) setMergeState({...cleared})`.  A present
`mergedUrl` is a (nonempty) object URL, so Option presence models its
truthiness. -/
def updateCard (s : VideoPanelState) (index : ℕ) (f : VideoCard → VideoCard) :
    VideoPanelState :=
  { cards := modifyAt f index s.cards
    mergeState :=
      match s.mergeState.mergedUrl with
      | some _ => clearedMergeState
      | none => s.mergeState }

/-- `deleteCard` (part_000 lines 532-535): filter the card out, then the
same conditional merge-state reset as `updateCard`. -/
def deleteCard (s : VideoPanelState) (index : ℕ) : VideoPanelState :=
  { cards := s.cards.eraseIdx index
    mergeState :=
      match s.mergeState.mergedUrl with
      | some _ => clearedMergeState
      | none => s.mergeState }

/-- First step of `handleGenerateVideo` (part_000 line 541), which is how
a regeneration starts: `updateCard(index, { status: 'loading',
progress: 0, errorMsg: null })`. -/
def handleGenerateVideoStart (s : VideoPanelState) (index : ℕ) : VideoPanelState :=
  updateCard s index (fun c => { c with status := "loading", progress := 0, errorMsg := none })

/-- The splice pair of `handleDragOver` (part_000 line 582-584): remove
the dragged card and re-insert it at the target position. -/
def moveCard {α : Type} (l : List α) (fromIdx toIdx : ℕ) : List α :=
  match l[fromIdx]? with
  | some a => (l.eraseIdx fromIdx).insertIdx toIdx a
  | none => l

/-- `handleDragOver` (part_000 lines 576-587): no-op when the dragged
index equals the target, otherwise reorder the cards via `setCards`.
No other state is written by this handler. -/
def handleDragOver (s : VideoPanelState) (draggedCardIndex targetIndex : ℕ) :
    VideoPanelState :=
  if draggedCardIndex = targetIndex then s
  else { cards := moveCard s.cards draggedCardIndex targetIndex
         mergeState := s.mergeState }

/-- JavaScript `parseFloat(x) || d` (promptBuilder lines 173-174): a
failed parse (`none`, for NaN) and a parse of 0 both fall back to the
default. -/
def jsOrNum (v : Option ℚ) (d : ℚ) : ℚ :=
  match v with
  | some x => if x = 0 then d else x
  | none => d

/-- Grid count of `calculateImageDimensions` (promptBuilder lines
150-157): `1x1` gives 1, `2x2` gives 2, everything else 3.  The source
computes `cols` and `rows` by the same expression. -/
def promptGridCount (grid : String) : ℕ :=
  if grid == "1x1" then 1 else if grid == "2x2" then 2 else 3

/-- Long-edge mapping of `calculateImageDimensions` (promptBuilder lines
159-168): default 1920, `4k` 3840, `2k` 1920, `1k` 1024. -/
def qualityLongEdge (quality : String) : ℚ :=
  if quality == "4k" then 3840
  else if quality == "2k" then 1920
  else if quality == "1k" then 1024
  else 1920

/-- `aspectRatio = inputW / inputH` with the fallback defaults 1920 and
1080 (promptBuilder lines 173-175). -/
def inputAspectRatio (w h : Option ℚ) : ℚ :=
  jsOrNum w 1920 / jsOrNum h 1080

/-- `finalW` before 8-alignment (promptBuilder lines 177-190). -/
def rawFinalW (quality : String) (w h : Option ℚ) : ℚ :=
  if 1 ≤ inputAspectRatio w h then qualityLongEdge quality
  else qualityLongEdge quality * inputAspectRatio w h

/-- `finalH` before 8-alignment (promptBuilder lines 177-190). -/
def rawFinalH (quality : String) (w h : Option ℚ) : ℚ :=
  if 1 ≤ inputAspectRatio w h then qualityLongEdge quality / inputAspectRatio w h
  else qualityLongEdge quality

/-- `finalW = Math.round(finalW / 8) * 8` (promptBuilder line 193);
`Math.round` is round-half-up, which is Mathlib `round`. -/
def finalWInt (quality : String) (w h : Option ℚ) : ℤ :=
  round (rawFinalW quality w h / 8) * 8

/-- `finalH = Math.round(finalH / 8) * 8` (promptBuilder line 194). -/
def finalHInt (quality : String) (w h : Option ℚ) : ℤ :=
  round (rawFinalH quality w h / 8) * 8

/-- The numeric fields returned by `calculateImageDimensions`
(promptBuilder lines 224-236).  The descriptive string fields
(`ratioStr`, `orientationDesc`, `gridDesc`) are prompt text and are not
modelled. -/
structure ImageDimensions where
  shotW : ℤ
  shotH : ℤ
  cols : ℕ
  rows : ℕ
  rawTotalW : ℤ
  rawTotalH : ℤ
  finalW : ℤ
  finalH : ℤ

/-- `calculateImageDimensions` (promptBuilder lines 149-237), numeric
part: grid, long edge, fallback-normalised aspect ratio, orientation
branch, 8-alignment, and the floored back-derived per-cell size;
`rawTotalW`/`rawTotalH` are returned equal to `finalW`/`finalH`. -/
def calculateImageDimensions (grid quality : String) (w h : Option ℚ) : ImageDimensions :=
  { shotW := ⌊(finalWInt quality w h : ℚ) / (promptGridCount grid : ℚ)⌋
    shotH := ⌊(finalHInt quality w h : ℚ) / (promptGridCount grid : ℚ)⌋
    cols := promptGridCount grid
    rows := promptGridCount grid
    rawTotalW := finalWInt quality w h
    rawTotalH := finalHInt quality w h
    finalW := finalWInt quality w h
    finalH := finalHInt quality w h }

theorem gridCells_succ (rows cols : ℕ) (pw ph ar : ℚ) :
    gridCells (rows + 1) cols pw ph ar =
      gridCells rows cols pw ph ar ++
        (List.range cols).map (fun (x : ℕ) =>
          { sx := (x : ℚ) * pw, sy := (rows : ℚ) * ph, sw := pw, sh := ph
            shotIndex := (rows * cols + x + 1 : ℕ), aspectRatio := ar }) := by
  simp [gridCells, List.range_succ, List.flatMap_append]

theorem gridCells_length (rows cols : ℕ) (pw ph ar : ℚ) :
    (gridCells rows cols pw ph ar).length = rows * cols := by
  induction rows with
  | zero => simp [gridCells]
  | succ m ih =>
    rw [gridCells_succ, List.length_append, ih, List.length_map, List.length_range]
    ring

theorem gridCells_getElem (rows cols : ℕ) (pw ph ar : ℚ) :
    ∀ k : ℕ, k < rows * cols →
      (gridCells rows cols pw ph ar)[k]? =
        some { sx := ((k % cols : ℕ) : ℚ) * pw, sy := ((k / cols : ℕ) : ℚ) * ph
               sw := pw, sh := ph, shotIndex := k + 1, aspectRatio := ar } := by
  induction rows with
  | zero => intro k hk; simp at hk
  | succ m ih =>
    intro k hk
    rw [gridCells_succ]
    by_cases h : k < m * cols
    · rw [List.getElem?_append_left (by rw [gridCells_length]; exact h)]
      exact ih k h
    · have h1 : m * cols ≤ k := le_of_not_lt h
      have h2 : k < (m + 1) * cols := hk
      have hmc : (m + 1) * cols = m * cols + cols := by ring
      have h3 : k - m * cols < cols := by omega
      rw [List.getElem?_append_right (by rw [gridCells_length]; exact h1)]
      rw [gridCells_length, List.getElem?_map, List.getElem?_range h3]
      have hdiv : k / cols = m := Nat.div_eq_of_lt_le h1 h2
      have hdm := Nat.div_add_mod k cols
      rw [hdiv] at hdm
      have hcm : cols * m = m * cols := Nat.mul_comm cols m
      have hmod : k % cols = k - m * cols := by omega
      have hsi : m * cols + (k - m * cols) + 1 = k + 1 := by omega
      simp only [Option.map_some', Option.some.injEq, SliceSpec.mk.injEq]
      exact ⟨by rw [hmod], by rw [hdiv], trivial, trivial, hsi, trivial⟩

theorem cellIndex_exists (w : ℚ) (hw : 0 < w) (n : ℕ) (p : ℚ)
    (hp : 0 ≤ p) (hpn : p < (n : ℚ) * w) :
    ∃ x : ℕ, x < n ∧ (x : ℚ) * w ≤ p ∧ p < ((x : ℚ) + 1) * w := by
  have h0 : (0 : ℚ) ≤ p / w := div_nonneg hp hw.le
  have hfl : 0 ≤ ⌊p / w⌋ := Int.floor_nonneg.mpr h0
  refine ⟨(⌊p / w⌋).toNat, ?_, ?_, ?_⟩
  · by_contra hcon
    have hn : (n : ℚ) ≤ ((⌊p / w⌋).toNat : ℚ) := by exact_mod_cast le_of_not_lt hcon
    have hq : (((⌊p / w⌋).toNat : ℤ) : ℚ) ≤ p / w := by
      rw [Int.toNat_of_nonneg hfl]; exact Int.floor_le _
    have : (n : ℚ) * w ≤ p := by
      have := (le_div_iff₀ hw).mp (le_trans hn (by exact_mod_cast hq))
      linarith
    linarith
  · have hq : (((⌊p / w⌋).toNat : ℤ) : ℚ) ≤ p / w := by
      rw [Int.toNat_of_nonneg hfl]; exact Int.floor_le _
    have := (le_div_iff₀ hw).mp (by exact_mod_cast hq : ((⌊p / w⌋).toNat : ℚ) ≤ p / w)
    linarith
  · have hq : p / w < (((⌊p / w⌋).toNat : ℤ) : ℚ) + 1 := by
      rw [Int.toNat_of_nonneg hfl]; exact Int.lt_floor_add_one _
    have := (div_lt_iff₀ hw).mp (by exact_mod_cast hq : p / w < ((⌊p / w⌋).toNat : ℚ) + 1)
    linarith

theorem cellIndex_unique (w : ℚ) (hw : 0 < w) (p : ℚ) (x y : ℕ)
    (hx1 : (x : ℚ) * w ≤ p) (hx2 : p < ((x : ℚ) + 1) * w)
    (hy1 : (y : ℚ) * w ≤ p) (hy2 : p < ((y : ℚ) + 1) * w) : x = y := by
  by_contra h
  rcases Nat.lt_or_ge x y with hlt | hge
  · have hyx : (x : ℚ) + 1 ≤ (y : ℚ) := by exact_mod_cast hlt
    nlinarith
  · have hgt : y < x := by omega
    have hxy : (y : ℚ) + 1 ≤ (x : ℚ) := by exact_mod_cast hgt
    nlinarith

/-- C1: for every decodable source image (positive decoded dimensions) and
every grid mode (2x2 giving rows = cols = 2, otherwise rows = cols = 3),
`performSlicing` resolves with exactly rows × cols slices in row-major
order (slice k is row k / cols, column k % cols, titled Shot k+1), whose
source rectangles — cell width `imgW / cols`, cell height `imgH / rows`
computed from the actual decoded dimensions — exactly tile the source
image (every image point is covered by exactly one slice rectangle), and
every slice carries `aspectRatio = shotW / shotH`, the configured
single-shot ratio. -/
theorem C1_performSlicing_grid_tiling (imgW imgH shotW shotH : ℚ) (mode : String)
    (hW : 0 < imgW) (hH : 0 < imgH) :
    (performSlicing imgW imgH mode shotW shotH).length = sliceRows mode * sliceCols mode
    ∧ (∀ k : ℕ, k < sliceRows mode * sliceCols mode →
        (performSlicing imgW imgH mode shotW shotH)[k]? =
          some { sx := ((k % sliceCols mode : ℕ) : ℚ) * (imgW / (sliceCols mode : ℚ))
                 sy := ((k / sliceCols mode : ℕ) : ℚ) * (imgH / (sliceRows mode : ℚ))
                 sw := imgW / (sliceCols mode : ℚ)
                 sh := imgH / (sliceRows mode : ℚ)
                 shotIndex := k + 1
                 aspectRatio := shotW / shotH })
    ∧ (∀ px py : ℚ, 0 ≤ px → px < imgW → 0 ≤ py → py < imgH →
        ∃! k : ℕ, ∃ s, (performSlicing imgW imgH mode shotW shotH)[k]? = some s
          ∧ coversPoint s px py)
    ∧ (∀ s ∈ performSlicing imgW imgH mode shotW shotH, s.aspectRatio = shotW / shotH) := by
  have hr : 0 < sliceRows mode := by unfold sliceRows; split <;> norm_num
  have hcpos : 0 < sliceCols mode := by unfold sliceCols; split <;> norm_num
  simp only [performSlicing]
  set R := sliceRows mode with hRdef
  set C := sliceCols mode with hCdef
  set pw := imgW / (C : ℚ) with hpwdef
  set ph := imgH / (R : ℚ) with hphdef
  have hCQ : (0 : ℚ) < (C : ℚ) := by exact_mod_cast hcpos
  have hRQ : (0 : ℚ) < (R : ℚ) := by exact_mod_cast hr
  have hpw : 0 < pw := div_pos hW hCQ
  have hph : 0 < ph := div_pos hH hRQ
  have hCw : (C : ℚ) * pw = imgW := by rw [hpwdef]; field_simp
  have hRh : (R : ℚ) * ph = imgH := by rw [hphdef]; field_simp
  refine ⟨gridCells_length R C pw ph (shotW / shotH), ?_, ?_, ?_⟩
  · exact fun k hk => gridCells_getElem R C pw ph (shotW / shotH) k hk
  · intro px py hpx0 hpx1 hpy0 hpy1
    obtain ⟨x, hxC, hx1, hx2⟩ :=
      cellIndex_exists pw hpw C px hpx0 (by rw [hCw]; exact hpx1)
    obtain ⟨y, hyR, hy1, hy2⟩ :=
      cellIndex_exists ph hph R py hpy0 (by rw [hRh]; exact hpy1)
    have hkC : x + y * C < R * C := by
      have h5 : x + y * C < (y + 1) * C := by
        calc x + y * C < C + y * C := Nat.add_lt_add_right hxC (y * C)
          _ = (y + 1) * C := by ring
      exact lt_of_lt_of_le h5 (Nat.mul_le_mul_right C hyR)
    have hmod : (x + y * C) % C = x := by
      rw [Nat.add_mul_mod_self_right]; exact Nat.mod_eq_of_lt hxC
    have hdiv : (x + y * C) / C = y := by
      rw [Nat.add_mul_div_right x y hcpos, Nat.div_eq_of_lt hxC, Nat.zero_add]
    refine ⟨x + y * C,
      ⟨_, gridCells_getElem R C pw ph (shotW / shotH) (x + y * C) hkC, ?_⟩, ?_⟩
    · simp only [coversPoint, hmod, hdiv]
      have e1 : ((x : ℚ) + 1) * pw = (x : ℚ) * pw + pw := by ring
      have e2 : ((y : ℚ) + 1) * ph = (y : ℚ) * ph + ph := by ring
      exact ⟨hx1, by linarith, hy1, by linarith⟩
    · intro k' hk'
      obtain ⟨s', hget, hcov⟩ := hk'
      have hlen : k' < R * C := by
        obtain ⟨hlt, _⟩ := List.getElem?_eq_some.mp hget
        rwa [gridCells_length] at hlt
      rw [gridCells_getElem R C pw ph (shotW / shotH) k' hlen] at hget
      have hs' := Option.some.inj hget
      rw [← hs'] at hcov
      obtain ⟨hc1, hc2, hc3, hc4⟩ := hcov
      have hex : k' % C = x := by
        refine cellIndex_unique pw hpw px (k' % C) x hc1 ?_ hx1 hx2
        have e1 : (((k' % C : ℕ) : ℚ) + 1) * pw = ((k' % C : ℕ) : ℚ) * pw + pw := by ring
        rw [e1]; exact hc2
      have hey : k' / C = y := by
        refine cellIndex_unique ph hph py (k' / C) y hc3 ?_ hy1 hy2
        have e2 : (((k' / C : ℕ) : ℚ) + 1) * ph = ((k' / C : ℕ) : ℚ) * ph + ph := by ring
        rw [e2]; exact hc4
      have hdm := Nat.div_add_mod k' C
      rw [hex, hey] at hdm
      have hcy : C * y = y * C := Nat.mul_comm C y
      omega
  · intro s hs
    simp only [gridCells, List.mem_flatMap, List.mem_map, List.mem_range] at hs
    obtain ⟨y, hy, x, hx, hmk⟩ := hs
    rw [← hmk]

/-- Witness for C1 at a concrete decodable image: a 6 × 3 image in 3x3
mode yields 9 slices. -/
theorem C1_performSlicing_grid_tiling_witness :
    (performSlicing 6 3 "3x3" 16 9).length = 9 := by
  have h := C1_performSlicing_grid_tiling 6 3 16 9 "3x3" (by norm_num) (by norm_num)
  simpa [sliceRows, sliceCols] using h.1

/-- C2: for every reachable task snapshot, `imageUrl` (the spec calls it
resultImageUrl) is non-null if and only if the status is success, the
slice list is non-empty if and only if the status is success (both are
filled by the single success update), and a task that ends in error
keeps them null and empty. -/
theorem C2_task_result_iff_success (t : GenTask) (h : TaskReachable t) :
    (t.imageUrl ≠ none ↔ t.status = "success")
    ∧ (t.slices ≠ [] ↔ t.status = "success")
    ∧ (t.status = "error" → t.imageUrl = none ∧ t.slices = []) := by
  cases h with
  | created id prompt gridMode =>
    refine ⟨?_, ?_, fun _ => ⟨rfl, rfl⟩⟩
    · show (none : Option String) ≠ none ↔ ("loading" : String) = "success"
      simp
    · show ([] : List SliceSpec) ≠ [] ↔ ("loading" : String) = "success"
      simp
  | succeeded id prompt gridMode url imgW imgH shotW shotH =>
    have hpos : 0 < (performSlicing imgW imgH gridMode shotW shotH).length := by
      simp only [performSlicing]
      rw [gridCells_length]
      have h1 : 0 < sliceRows gridMode := by unfold sliceRows; split <;> norm_num
      have h2 : 0 < sliceCols gridMode := by unfold sliceCols; split <;> norm_num
      exact Nat.mul_pos h1 h2
    refine ⟨?_, ?_, ?_⟩
    · show some url ≠ none ↔ ("success" : String) = "success"
      simp
    · show performSlicing imgW imgH gridMode shotW shotH ≠ [] ↔ ("success" : String) = "success"
      simp only [iff_true_intro rfl, iff_true]
      exact List.ne_nil_of_length_pos hpos
    · intro hcon
      have hcon2 : ("success" : String) = "error" := hcon
      exact absurd hcon2 (by decide)
  | errored id prompt gridMode =>
    refine ⟨?_, ?_, fun _ => ⟨rfl, rfl⟩⟩
    · show (none : Option String) ≠ none ↔ ("error" : String) = "success"
      simp
    · show ([] : List SliceSpec) ≠ [] ↔ ("error" : String) = "success"
      simp

/-- Witness for C2 at a concrete reachable task: a freshly created task
satisfies the slice invariant. -/
theorem C2_task_result_iff_success_witness :
    (newTask 1 "p" "3x3").slices ≠ [] ↔ (newTask 1 "p" "3x3").status = "success" :=
  (C2_task_result_iff_success (newTask 1 "p" "3x3") (TaskReachable.created 1 "p" "3x3")).2.1

/-- C3: the dimension computation is total, both final dimensions are
always multiples of 8, the quality tiers map to long edges 1024 / 1920 /
3840, the orientation branch follows the aspect ratio (width pinned to
the long edge when ratio at least 1, height pinned otherwise), and the
concrete round trip quality 4k with shot size 1920 x 1080 yields
3840 x 2160, divisible by 8 with ratio exactly 16:9 (well within 1
percent). -/
theorem C3_calculateImageDimensions_spec (grid quality : String) (w h : Option ℚ) :
    (8 ∣ (calculateImageDimensions grid quality w h).finalW)
    ∧ (8 ∣ (calculateImageDimensions grid quality w h).finalH)
    ∧ qualityLongEdge "1k" = 1024 ∧ qualityLongEdge "2k" = 1920 ∧ qualityLongEdge "4k" = 3840
    ∧ (1 ≤ inputAspectRatio w h →
        (calculateImageDimensions grid quality w h).finalW
            = round (qualityLongEdge quality / 8) * 8
        ∧ (calculateImageDimensions grid quality w h).finalH
            = round (qualityLongEdge quality / inputAspectRatio w h / 8) * 8)
    ∧ (inputAspectRatio w h < 1 →
        (calculateImageDimensions grid quality w h).finalH
            = round (qualityLongEdge quality / 8) * 8
        ∧ (calculateImageDimensions grid quality w h).finalW
            = round (qualityLongEdge quality * inputAspectRatio w h / 8) * 8)
    ∧ (quality = "4k" → w = some 1920 → h = some 1080 →
        (calculateImageDimensions grid quality w h).finalW = 3840
        ∧ (calculateImageDimensions grid quality w h).finalH = 2160
        ∧ ((calculateImageDimensions grid quality w h).finalW : ℚ)
            / ((calculateImageDimensions grid quality w h).finalH : ℚ) = 16 / 9) := by
  refine ⟨dvd_mul_left 8 _, dvd_mul_left 8 _, rfl, rfl, rfl, ?_, ?_, ?_⟩
  · intro hr
    constructor
    · show round (rawFinalW quality w h / 8) * 8 = round (qualityLongEdge quality / 8) * 8
      rw [rawFinalW, if_pos hr]
    · show round (rawFinalH quality w h / 8) * 8
          = round (qualityLongEdge quality / inputAspectRatio w h / 8) * 8
      rw [rawFinalH, if_pos hr]
  · intro hr
    have hr' : ¬ 1 ≤ inputAspectRatio w h := not_le.mpr hr
    constructor
    · show round (rawFinalH quality w h / 8) * 8 = round (qualityLongEdge quality / 8) * 8
      rw [rawFinalH, if_neg hr']
    · show round (rawFinalW quality w h / 8) * 8
          = round (qualityLongEdge quality * inputAspectRatio w h / 8) * 8
      rw [rawFinalW, if_neg hr']
  · intro hq hw hh
    subst hq; subst hw; subst hh
    have hr : inputAspectRatio (some 1920) (some 1080) = 16 / 9 := by
      norm_num [inputAspectRatio, jsOrNum]
    have h4 : qualityLongEdge "4k" = (3840 : ℚ) := rfl
    have hfW : finalWInt "4k" (some 1920) (some 1080) = 3840 := by
      simp only [finalWInt, rawFinalW, hr, h4]
      norm_num [round_eq]
    have hfH : finalHInt "4k" (some 1920) (some 1080) = 2160 := by
      simp only [finalHInt, rawFinalH, hr, h4]
      norm_num [round_eq]
    refine ⟨hfW, hfH, ?_⟩
    show ((finalWInt "4k" (some 1920) (some 1080) : ℤ) : ℚ)
        / ((finalHInt "4k" (some 1920) (some 1080) : ℤ) : ℚ) = 16 / 9
    rw [hfW, hfH]
    norm_num

/-- Witness for C3: the concrete 4k / 1920x1080 round trip. -/
theorem C3_calculateImageDimensions_spec_witness :
    (calculateImageDimensions "3x3" "4k" (some 1920) (some 1080)).finalW = 3840
    ∧ (calculateImageDimensions "3x3" "4k" (some 1920) (some 1080)).finalH = 2160
    ∧ ((calculateImageDimensions "3x3" "4k" (some 1920) (some 1080)).finalW : ℚ)
        / ((calculateImageDimensions "3x3" "4k" (some 1920) (some 1080)).finalH : ℚ) = 16 / 9 :=
  (C3_calculateImageDimensions_spec "3x3" "4k" (some 1920) (some 1080)).2.2.2.2.2.2.2
    rfl rfl rfl

/-- C10: every grid-mode string other than 1x1 and 2x2 — unknown or
malformed values included — makes both the prompt dimension computation
and the image slicer default to a 3 x 3 grid, producing 9 cells; no grid
value is rejected (both functions are total). -/
theorem C10_default_grid_3x3 (g : String) (h1 : g ≠ "1x1") (h2 : g ≠ "2x2") :
    (∀ quality w h, (calculateImageDimensions g quality w h).cols = 3
      ∧ (calculateImageDimensions g quality w h).rows = 3)
    ∧ sliceRows g = 3 ∧ sliceCols g = 3
    ∧ (∀ imgW imgH sw sh : ℚ, (performSlicing imgW imgH g sw sh).length = 9) := by
  have hb1 : (g == "1x1") = false := beq_eq_false_iff_ne.mpr h1
  have hb2 : (g == "2x2") = false := beq_eq_false_iff_ne.mpr h2
  have hrows : sliceRows g = 3 := by rw [sliceRows, hb2]; rfl
  have hcols : sliceCols g = 3 := by rw [sliceCols, hb2]; rfl
  refine ⟨?_, hrows, hcols, ?_⟩
  · intro quality w h
    constructor
    · show promptGridCount g = 3
      rw [promptGridCount, hb1, hb2]; rfl
    · show promptGridCount g = 3
      rw [promptGridCount, hb1, hb2]; rfl
  · intro imgW imgH sw sh
    simp only [performSlicing]
    rw [gridCells_length, hrows, hcols]

/-- Witness for C10 at the unknown grid value 5x5. -/
theorem C10_default_grid_3x3_witness :
    (calculateImageDimensions "5x5" "2k" (some 1920) (some 1080)).cols = 3
    ∧ (performSlicing 9 9 "5x5" 16 9).length = 9 := by
  have h := C10_default_grid_3x3 "5x5" (by decide) (by decide)
  exact ⟨(h.1 "2k" (some 1920) (some 1080)).1, h.2.2.2 9 9 16 9⟩

theorem soraFailedMsg_ne_timeout (reason : String) :
    soraFailedMsg reason ≠ soraTimeoutMsg := by
  intro hcon
  have hdata : "Sora Task Failed: ".data ++ reason.data = soraTimeoutMsg.data := by
    rw [← String.data_append]
    exact congrArg String.data hcon
  have h10 := congrArg (fun l => l[10]?) hdata
  simp only at h10
  rw [List.getElem?_append_left (by decide)] at h10
  exact absurd h10 (by decide)

/-- C4: if the remote status stays non-terminal (neither succeeded nor
failed) on every poll and the task is not cancelled, the polling loop of
`generateSoraImage` runs its bounded 450 attempts and then terminates
with the timeout error, whose message differs from every
remote-reported-failure message; it never polls beyond the ceiling
because the loop is structurally bounded by `soraMaxAttempts`. -/
theorem C4_polling_bounded_timeout (responses : ℕ → PollResponse) (aborted : ℕ → Bool)
    (hab : ∀ i, aborted i = false)
    (hnt : ∀ i, (responses i).status ≠ "succeeded" ∧ (responses i).status ≠ "failed") :
    generateSoraImagePoll responses aborted = Except.error soraTimeoutMsg
    ∧ ∀ reason, soraFailedMsg reason ≠ soraTimeoutMsg := by
  constructor
  · have main : ∀ fuel i, soraPollLoop responses aborted fuel i = Except.error soraTimeoutMsg := by
      intro fuel
      induction fuel with
      | zero => intro i; rfl
      | succ m ih =>
        intro i
        have hs1 : ((responses i).status == "succeeded") = false :=
          beq_eq_false_iff_ne.mpr (hnt i).1
        have hs2 : ((responses i).status == "failed") = false :=
          beq_eq_false_iff_ne.mpr (hnt i).2
        have hstep : soraPollLoop responses aborted (m + 1) i =
            if aborted i then Except.error "User cancelled."
            else
              if (responses i).ok = false then soraPollLoop responses aborted m (i + 1)
              else if (responses i).status == "succeeded" then
                match soraFinalUrl (responses i) with
                | some u => Except.ok u
                | none => Except.error "Status succeeded but no URL found."
              else if (responses i).status == "failed" then
                Except.error (soraFailedMsg (soraFailReason (responses i)))
              else soraPollLoop responses aborted m (i + 1) := rfl
        rw [hstep, hab i]
        simp only [hs1, hs2, Bool.false_eq_true, if_false]
        by_cases hok : (responses i).ok = false
        · rw [if_pos hok]; exact ih (i + 1)
        · rw [if_neg hok]; exact ih (i + 1)
    exact main soraMaxAttempts 0
  · exact soraFailedMsg_ne_timeout

/-- Witness for C4 at a concrete always-running remote and a
never-cancelled signal. -/
theorem C4_polling_bounded_timeout_witness :
    generateSoraImagePoll (fun _ => ⟨true, "running", none, none, none, none⟩) (fun _ => false)
      = Except.error soraTimeoutMsg :=
  (C4_polling_bounded_timeout (fun _ => ⟨true, "running", none, none, none, none⟩)
    (fun _ => false) (fun _ => rfl)
    (fun _ => ⟨show ("running" : String) ≠ "succeeded" by decide,
               show ("running" : String) ≠ "failed" by decide⟩)).1

/-- C5: cancelling a Sora polling task makes the loop throw the error
with message User cancelled. — but the orchestrator catch
(StoryboardApp.jsx:602) only suppresses the messages 已取消 and 用户取消,
so this cancellation path DOES open the global error modal, contradicting
the claim (and the comment at StoryboardApp.jsx:601) that user
cancellation never triggers it.  The nano-banana and Gemini AbortError
paths are suppressed, while the Gemini pre-flight check message 用户取消请求
is also shown.  This theorem evaluates the code at the failing input. -/
theorem C5_sora_cancellation_shows_modal :
    generateSoraImagePoll (fun _ => ⟨true, "running", none, none, none, none⟩) (fun _ => true)
      = Except.error "User cancelled."
    ∧ showsErrorModal "User cancelled." = true
    ∧ showsErrorModal nanoBananaCancelMsg = false
    ∧ showsErrorModal geminiAbortMsg = false
    ∧ showsErrorModal geminiPreflightCancelMsg = true := by
  refine ⟨rfl, by decide, by decide, by decide, by decide⟩

/-- C6 counterexample: a signal cancelled at time 1 — one millisecond
into the first 2000 ms sleep — is observed by the loop only at time
2000, when the sleep ends, not immediately at time 1. -/
theorem C6_cancel_immediate_counterexample :
    pollCancelObserved 1 = some 2000 ∧ (some 2000 : Option ℕ) ≠ some 1 := by
  exact ⟨by decide, by decide⟩

/-- C6 (amended): each polling iteration checks the token before the
sleep, and the network call carries the signal, so a pending
cancellation aborts when the call starts; but the fixed sleep is not
signal-aware, so a cancellation arriving during it takes effect only
when the sleep ends — within one full poll interval (2000 ms) of the
cancellation, not immediately.  Cancellations within the total polling
window (450 attempts times 2000 ms) are always observed. -/
theorem C6_cancel_observed_within_one_interval (ta : ℕ)
    (h : ta ≤ soraMaxAttempts * soraPollDelayMs) :
    ∃ t, pollCancelObserved ta = some t ∧ ta ≤ t ∧ t ≤ ta + soraPollDelayMs := by
  have main : ∀ fuel t0, 1 ≤ fuel → ta ≤ 2000 * fuel + t0 → t0 ≤ ta + 2000 →
      ∃ t, pollCancelTime ta fuel t0 = some t ∧ ta ≤ t ∧ t ≤ ta + 2000 := by
    intro fuel
    induction fuel with
    | zero => intro t0 h1 _ _; omega
    | succ m ih =>
      intro t0 _ h2 h3
      have hstep : pollCancelTime ta (m + 1) t0 =
          if ta ≤ t0 then some t0
          else if ta ≤ t0 + 2000 then some (t0 + 2000)
          else pollCancelTime ta m (t0 + 2000) := rfl
      rw [hstep]
      by_cases hta : ta ≤ t0
      · rw [if_pos hta]; exact ⟨t0, rfl, hta, h3⟩
      · rw [if_neg hta]
        by_cases hta2 : ta ≤ t0 + 2000
        · rw [if_pos hta2]; exact ⟨t0 + 2000, rfl, hta2, by omega⟩
        · rw [if_neg hta2]
          have hm : 1 ≤ m := by omega
          exact ih (t0 + 2000) hm (by omega) (by omega)
  have h450 : (1 : ℕ) ≤ soraMaxAttempts := by norm_num [soraMaxAttempts]
  have hbound : ta ≤ 2000 * soraMaxAttempts + 0 := by
    have hb : soraMaxAttempts * soraPollDelayMs = 2000 * soraMaxAttempts + 0 := by
      norm_num [soraMaxAttempts, soraPollDelayMs]
    omega
  obtain ⟨t, ht1, ht2, ht3⟩ := main soraMaxAttempts 0 h450 hbound (by omega)
  exact ⟨t, ht1, ht2, by simpa [soraPollDelayMs] using ht3⟩

/-- Witness for C6 (amended) at a cancellation arriving at time 5000,
during the third sleep. -/
theorem C6_cancel_observed_within_one_interval_witness :
    ∃ t, pollCancelObserved 5000 = some t ∧ 5000 ≤ t ∧ t ≤ 5000 + soraPollDelayMs :=
  C6_cancel_observed_within_one_interval 5000 (by norm_num [soraMaxAttempts, soraPollDelayMs])

theorem handleJimengProcessing_split (backend : QueueItem → Except String String)
    (l1 l2 : List QueueItem) (item : QueueItem) (e : String)
    (hfail : backend item = Except.error e) :
    handleJimengProcessing backend (l1 ++ item :: l2)
      = handleJimengProcessing backend l1 ++ handleJimengProcessing backend l2 := by
  induction l1 with
  | nil => simp [handleJimengProcessing, hfail]
  | cons a t ih =>
    cases hba : backend a with
    | error eb => simpa [handleJimengProcessing, hba] using ih
    | ok rb => simpa [handleJimengProcessing, hba] using ih

theorem handleUpscaleLoop_split (backend : QueueItem → Except String String)
    (l1 l2 : List QueueItem) (item : QueueItem) (e : String)
    (hfail : backend item = Except.error e) :
    handleUpscaleLoop backend (l1 ++ item :: l2)
      = handleUpscaleLoop backend l1 ++ handleUpscaleLoop backend l2 := by
  induction l1 with
  | nil => simp [handleUpscaleLoop, hfail]
  | cons a t ih =>
    cases hba : backend a with
    | error eb => simpa [handleUpscaleLoop, hba] using ih
    | ok rb => simpa [handleUpscaleLoop, hba] using ih

/-- C7: both upscale processors handle the queue strictly sequentially
with per-item failure isolation — an item whose backend call throws is
skipped and contributes nothing, while the items before and after it are
processed exactly as if the failing item were absent, so the batch is
never aborted by a single failure. -/
theorem C7_upscale_failure_isolation (backend : QueueItem → Except String String)
    (l1 l2 : List QueueItem) (item : QueueItem) (e : String)
    (hfail : backend item = Except.error e) :
    handleJimengProcessing backend (l1 ++ item :: l2)
      = handleJimengProcessing backend l1 ++ handleJimengProcessing backend l2
    ∧ handleUpscaleLoop backend (l1 ++ item :: l2)
      = handleUpscaleLoop backend l1 ++ handleUpscaleLoop backend l2 :=
  ⟨handleJimengProcessing_split backend l1 l2 item e hfail,
   handleUpscaleLoop_split backend l1 l2 item e hfail⟩

/-- Witness for C7 on a concrete 3-item queue whose middle item throws:
items 1 and 3 still produce their results. -/
theorem C7_upscale_failure_isolation_witness :
    handleJimengProcessing
        (fun it => if it.id = "2" then Except.error "boom" else Except.ok it.dataUrl)
        [⟨"1", "d1", 1⟩, ⟨"2", "d2", 1⟩, ⟨"3", "d3", 1⟩]
      = handleJimengProcessing
          (fun it => if it.id = "2" then Except.error "boom" else Except.ok it.dataUrl)
          [⟨"1", "d1", 1⟩]
        ++ handleJimengProcessing
            (fun it => if it.id = "2" then Except.error "boom" else Except.ok it.dataUrl)
            [⟨"3", "d3", 1⟩] :=
  (C7_upscale_failure_isolation
    (fun it => if it.id = "2" then Except.error "boom" else Except.ok it.dataUrl)
    [⟨"1", "d1", 1⟩] [⟨"3", "d3", 1⟩] ⟨"2", "d2", 1⟩ "boom" rfl).1

/-- C8 counterexample: running the App-side processor `handleUpscale`
over a non-empty queue does NOT leave the queue unchanged — the handler
executes `setProcessingQueue([])` after the batch
(StoryboardApp.jsx:781), so the queue it leaves behind is empty. -/
theorem C8_queue_cleared_counterexample :
    (handleUpscaleRun (fun it => Except.ok it.dataUrl)
        { processingQueue := [⟨"s1", "d1", 1⟩], upscaledResults := [] }).processingQueue
      ≠ ({ processingQueue := [⟨"s1", "d1", 1⟩], upscaledResults := [] }
          : UpscalePanelState).processingQueue := by
  decide

/-- C8 (amended): the MiddlePanel processor `handleJimengProcessing`
leaves the processing queue unchanged (it never writes the queue), while
the App-side `handleUpscale` clears the whole queue in one step after
the batch completes — not per consumed item; both processors only append
to the results list. -/
theorem C8_queue_frame_effect (backend : QueueItem → Except String String)
    (s : UpscalePanelState) :
    (handleJimengProcessingRun backend s).processingQueue = s.processingQueue
    ∧ (handleUpscaleRun backend s).processingQueue = []
    ∧ (∃ new, (handleJimengProcessingRun backend s).upscaledResults
        = s.upscaledResults ++ new)
    ∧ (∃ new, (handleUpscaleRun backend s).upscaledResults
        = s.upscaledResults ++ new) :=
  ⟨rfl, rfl, ⟨handleJimengProcessing backend s.processingQueue, rfl⟩,
    ⟨handleUpscaleLoop backend s.processingQueue, rfl⟩⟩

/-- C9 counterexample: with a previously computed merged URL present,
reordering the cards through `handleDragOver` keeps the stale
`mergedUrl` instead of clearing it — the drag handler never touches the
merge state (part_000 lines 576-587). -/
theorem C9_reorder_keeps_stale_merge_counterexample :
    (handleDragOver
        { cards := [⟨"a", "imgA", "pA", some "vidA", "success", 100, none⟩,
                    ⟨"b", "imgB", "pB", some "vidB", "success", 100, none⟩]
          mergeState := { isMerging := false, progress := 100, mergedUrl := some "blob:merged" } }
        0 1).mergeState.mergedUrl = some "blob:merged"
    ∧ (some "blob:merged" : Option String) ≠ none := by
  exact ⟨by decide, by decide⟩

/-- C9 (amended): editing a card (`updateCard`), deleting a card
(`deleteCard`), and regenerating a video (whose first step is an
`updateCard` to loading) always leave `mergedUrl` cleared — they reset
the merge state whenever a stale merged URL exists; reordering cards via
`handleDragOver` leaves the merge state untouched, so a stale merged URL
survives reordering. -/
theorem C9_structural_changes_invalidate_merge (s : VideoPanelState) (i : ℕ)
    (f : VideoCard → VideoCard) (di ti : ℕ) :
    (updateCard s i f).mergeState.mergedUrl = none
    ∧ (deleteCard s i).mergeState.mergedUrl = none
    ∧ (handleGenerateVideoStart s i).mergeState.mergedUrl = none
    ∧ (handleDragOver s di ti).mergeState = s.mergeState := by
  have hupd : ∀ (g : VideoCard → VideoCard), (updateCard s i g).mergeState.mergedUrl = none := by
    intro g
    cases hm : s.mergeState.mergedUrl with
    | some u => simp [updateCard, hm, clearedMergeState]
    | none => simp [updateCard, hm]
  refine ⟨hupd f, ?_, hupd _, ?_⟩
  · cases hm : s.mergeState.mergedUrl with
    | some u => simp [deleteCard, hm, clearedMergeState]
    | none => simp [deleteCard, hm]
  · unfold handleDragOver
    split <;> rfl
